import Mathlib

/-!
Verification of the AuditBoard-Controls-Bulk-Delete scripts against their
specification.  The Python sources under `scripts/` are shallowly embedded:
dictionaries fetched from the remote API become Lean structures whose fields
are `Option`-valued (mirroring `dict.get`, where `none` models an absent key),
the HTTP layer becomes an oracle function from attempt index to outcome, and
every place where the original code performs I/O (logging, sleeping, writing
result files) is either dropped (pure logging) or recorded in an explicit
trace (HTTP calls, sleeps), so that claims about "no destructive call is
issued" are statements about the trace.
-/

namespace AuditBoard

/-! ### Records fetched from the API (scripts/core/api_client.py callers)

Each remote record is an opaque JSON dictionary; the scripts only ever read
the keys modelled below via `dict.get`, so a record is embedded as a structure
of `Option` fields (`none` = key absent). -/

/-- A control record; `delete_controls.py` reads `id`, `uid`, `name`, and
`find_dependencies.py` additionally reads `subprocess_id`. -/
structure Control where
  id : Option Int
  uid : Option String
  name : Option String
  subprocess_id : Option Int
deriving DecidableEq, Repr

/-- An entity record (`id`, `name`, `entity_type_id`, `region_id`), as read by
`analyze_region.py`, `find_dependencies.py` and `delete_region.py`. -/
structure Entity where
  id : Option Int
  name : Option String
  entity_type_id : Option Int
  region_id : Option Int
deriving DecidableEq, Repr

/-- A process record (`id`, `name`, `uid`, `region_id`). -/
structure Process where
  id : Option Int
  name : Option String
  uid : Option String
  region_id : Option Int
deriving DecidableEq, Repr

/-- A subprocess record (`id`, `name`, `uid`, `process_id`). -/
structure Subprocess where
  id : Option Int
  name : Option String
  uid : Option String
  process_id : Option Int
deriving DecidableEq, Repr

/-- A `processes_data` junction record (entity_id ↔ process_id). -/
structure PDatum where
  id : Option Int
  entity_id : Option Int
  process_id : Option Int
deriving DecidableEq, Repr

/-- A `subprocesses_data` junction record (processes_datum_id ↔ subprocess_id). -/
structure SPDatum where
  id : Option Int
  processes_datum_id : Option Int
  subprocess_id : Option Int
deriving DecidableEq, Repr

/-- A `controls_data` junction record (control_id ↔ subprocesses_datum_id). -/
structure CDatum where
  id : Option Int
  control_id : Option Int
  subprocesses_datum_id : Option Int
deriving DecidableEq, Repr

/-- A region record as returned by `client.get_region` (`id`, `name`,
`description` are the keys read by the scripts). -/
structure RegionRec where
  id : Option Int
  name : Option String
  description : Option String
deriving DecidableEq, Repr

/-! ### Bulk control deletion (scripts/deletion/delete_controls.py)

`delete_controls_bulk` iterates the target list once; for each control it
either records a virtual deletion (dry-run), or issues one
`client.delete_control` call whose outcome is success (`True` returned),
failure (`False` returned), or a raised exception with a message.  The
outcome of the i-th call is supplied by an oracle indexed like
`enumerate(controls, 1)`.  The interactive confirmation and countdown (which
can terminate the process via `sys.exit`) are modelled by two booleans; a run
that exits before the loop is `none`.  The trace component records the ids
passed to `client.delete_control`, so dry-run nondestructiveness is the
statement that the trace is empty.  The `timestamp` key of the results dict
is not modelled (wall-clock time). -/

/-- Outcome of one `client.delete_control` call: returned `True`, returned
`False`, or raised an exception carrying message `msg`. -/
inductive DelOutcome where
  | ok
  | failed
  | exc (msg : String)
deriving DecidableEq, Repr

/-- One element of the `deleted`/`failed` lists of the results dict:
`\x7b'id': ..., 'uid': ..., 'name': ctrl.get('name', 'N/A'), 'error'?: ...\x7d`.
The `error` key is present (`some`) only for the exception branch. -/
structure DelEntry where
  id : Option Int
  uid : Option String
  name : String
  error : Option String
deriving DecidableEq, Repr

/-- Builds the per-control entry appended to `deleted` or `failed`:
`ctrl.get('id')`, `ctrl.get('uid')`, `ctrl.get('name', 'N/A')`. -/
def mkDelEntry (c : Control) (err : Option String) : DelEntry :=
  { id := c.id, uid := c.uid, name := c.name.getD "N/A", error := err }

/-- The results dict built by `delete_controls_bulk` (minus `timestamp`). -/
structure BulkResults where
  dry_run : Bool
  total_controls : Nat
  deleted : List DelEntry
  failed : List DelEntry
deriving DecidableEq, Repr

/-- The `for i, ctrl in enumerate(controls, 1)` loop of
`delete_controls_bulk`: returns (deleted, failed, trace of ids passed to
`client.delete_control`).  In dry-run mode every control goes to `deleted`
and no call is issued; in live mode the oracle decides the branch. -/
def delLoop (dryRun : Bool) (oracle : Nat → DelOutcome) :
    Nat → List Control → List DelEntry × List DelEntry × List (Option Int)
  | _, [] => ([], [], [])
  | i, c :: rest =>
    let r := delLoop dryRun oracle (i + 1) rest
    if dryRun then
      (mkDelEntry c none :: r.1, r.2.1, r.2.2)
    else
      match oracle i with
      | .ok => (mkDelEntry c none :: r.1, r.2.1, c.id :: r.2.2)
      | .failed => (r.1, mkDelEntry c none :: r.2.1, c.id :: r.2.2)
      | .exc m => (r.1, mkDelEntry c (some m) :: r.2.1, c.id :: r.2.2)

/-- `delete_controls_bulk(controls, client, logger, config, dry_run)`:
empty target list returns the zero results dict immediately; in live mode a
declined confirmation or an interrupted countdown exits before the loop
(modelled as `none`); otherwise the loop runs and the results dict is
returned together with the trace of delete calls issued. -/
def delete_controls_bulk (controls : List Control) (dryRun confirmOk countdownOk : Bool)
    (oracle : Nat → DelOutcome) : Option (BulkResults × List (Option Int)) :=
  if controls.isEmpty then
    some ({ dry_run := dryRun, total_controls := 0, deleted := [], failed := [] }, [])
  else if !dryRun && !confirmOk then
    none
  else if !dryRun && !countdownOk then
    none
  else
    let r := delLoop dryRun oracle 1 controls
    some ({ dry_run := dryRun, total_controls := controls.length,
            deleted := r.1, failed := r.2.1 }, r.2.2)

/-! ### Helper lemmas for the deletion loop -/

/-- Each step of the loop sends the control to exactly one of the two lists. -/
lemma delLoop_length (dryRun : Bool) (oracle : Nat → DelOutcome) :
    ∀ (i : Nat) (cs : List Control),
      (delLoop dryRun oracle i cs).1.length + (delLoop dryRun oracle i cs).2.1.length
        = cs.length := by
  intro i cs
  induction cs generalizing i with
  | nil => simp [delLoop]
  | cons c rest ih =>
    cases dryRun with
    | false =>
      cases h : oracle i <;>
        (simp only [delLoop, h, Bool.false_eq_true, if_false, List.length_cons]
         have := ih (i + 1); omega)
    | true =>
      simp only [delLoop, if_true, List.length_cons]
      have := ih (i + 1); omega

/-- The two lists together hold exactly the targets (by id, as a permutation). -/
lemma delLoop_perm (dryRun : Bool) (oracle : Nat → DelOutcome) :
    ∀ (i : Nat) (cs : List Control),
      (((delLoop dryRun oracle i cs).1 ++ (delLoop dryRun oracle i cs).2.1).map DelEntry.id).Perm
        (cs.map Control.id) := by
  intro i cs
  induction cs generalizing i with
  | nil => simp [delLoop]
  | cons c rest ih =>
    cases dryRun with
    | false =>
      cases h : oracle i with
      | ok => simpa [delLoop, h, mkDelEntry] using (ih (i + 1)).cons c.id
      | failed =>
        have hstep : delLoop false oracle i (c :: rest)
            = ((delLoop false oracle (i + 1) rest).1,
               mkDelEntry c none :: (delLoop false oracle (i + 1) rest).2.1,
               c.id :: (delLoop false oracle (i + 1) rest).2.2) := by
          simp [delLoop, h]
        rw [hstep]
        simp only [List.map_append, List.map_cons]
        exact List.perm_middle.trans (by simpa [mkDelEntry] using (ih (i + 1)).cons c.id)
      | exc m =>
        have hstep : delLoop false oracle i (c :: rest)
            = ((delLoop false oracle (i + 1) rest).1,
               mkDelEntry c (some m) :: (delLoop false oracle (i + 1) rest).2.1,
               c.id :: (delLoop false oracle (i + 1) rest).2.2) := by
          simp [delLoop, h]
        rw [hstep]
        simp only [List.map_append, List.map_cons]
        exact List.perm_middle.trans (by simpa [mkDelEntry] using (ih (i + 1)).cons c.id)
    | true => simpa [delLoop, mkDelEntry] using (ih (i + 1)).cons c.id

/-- In dry-run mode the loop virtually deletes everything and issues no call. -/
lemma delLoop_dryRun (oracle : Nat → DelOutcome) :
    ∀ (i : Nat) (cs : List Control),
      delLoop true oracle i cs = (cs.map (fun c => mkDelEntry c none), [], []) := by
  intro i cs
  induction cs generalizing i with
  | nil => simp [delLoop]
  | cons c rest ih => simp [delLoop, ih (i + 1)]

/-! ### Claim theorems C1, C2 -/

/-- C1: after any run of the bulk deletion loop over `n` target controls that
returns a results record, every target lands in exactly one of `deleted` and
`failed` — so `len(deleted) + len(failed) = n` and the ids in
`deleted ++ failed` are a permutation of the target ids — in both dry-run and
live mode and whatever each individual delete call does. -/
theorem C1_bulk_deletion_partitions_targets
    (controls : List Control) (dryRun confirmOk countdownOk : Bool)
    (oracle : Nat → DelOutcome) (res : BulkResults) (trace : List (Option Int))
    (h : delete_controls_bulk controls dryRun confirmOk countdownOk oracle = some (res, trace)) :
    res.deleted.length + res.failed.length = controls.length ∧
    ((res.deleted ++ res.failed).map DelEntry.id).Perm (controls.map Control.id) := by
  unfold delete_controls_bulk at h
  split at h
  · next hemp =>
    simp only [Option.some.injEq, Prod.mk.injEq] at h
    obtain ⟨h1, h2⟩ := h
    subst h1
    rw [List.isEmpty_iff.mp hemp]
    simp
  · split at h
    · simp at h
    · split at h
      · simp at h
      · simp only [Option.some.injEq, Prod.mk.injEq] at h
        obtain ⟨h1, h2⟩ := h
        subst h1
        exact ⟨delLoop_length dryRun oracle 1 controls, delLoop_perm dryRun oracle 1 controls⟩

/-- Witness for C1 at a concrete live run where the single delete call raises. -/
theorem C1_bulk_deletion_partitions_targets_witness :
    delete_controls_bulk [⟨some 100, some "CC-1", some "Ctrl", none⟩] false true true
        (fun _ => DelOutcome.exc "boom")
      = some ({ dry_run := false, total_controls := 1, deleted := [],
                failed := [⟨some 100, some "CC-1", "Ctrl", some "boom"⟩] }, [some 100]) ∧
    ([] : List DelEntry).length + [(⟨some 100, some "CC-1", "Ctrl", some "boom"⟩ : DelEntry)].length = 1 := by
  refine ⟨by simp [delete_controls_bulk, delLoop, mkDelEntry], ?_⟩
  exact (C1_bulk_deletion_partitions_targets
    [⟨some 100, some "CC-1", some "Ctrl", none⟩] false true true
    (fun _ => DelOutcome.exc "boom")
    { dry_run := false, total_controls := 1, deleted := [],
      failed := [⟨some 100, some "CC-1", "Ctrl", some "boom"⟩] } [some 100]
    (by simp [delete_controls_bulk, delLoop, mkDelEntry])).1

/-- C2: with `dry_run = True`, `delete_controls_bulk` never calls
`client.delete_control` (empty call trace), records every target in
`deleted` with its id, uid and name, leaves `failed` empty, and the returned
results record carries `dry_run = true`. -/
theorem C2_dry_run_never_destructive
    (controls : List Control) (confirmOk countdownOk : Bool) (oracle : Nat → DelOutcome) :
    delete_controls_bulk controls true confirmOk countdownOk oracle =
      some ({ dry_run := true, total_controls := controls.length,
              deleted := controls.map (fun c => mkDelEntry c none), failed := [] }, []) := by
  unfold delete_controls_bulk
  rcases hc : controls with _ | ⟨c, rest⟩
  · simp
  · simp [delLoop_dryRun oracle 1]

/-! ### HTTP client with retry (scripts/core/api_client.py)

`AuditBoardClient._make_request` issues `requests.request` once per attempt;
the network is modelled by an oracle mapping the attempt index (the
`retry_count` at which the attempt happens) to its outcome: either a response
with a status code and a parsed body, or a raised `requests.RequestException`
(connection error, timeout, ...).  The body parameter `α` stands for the JSON
payload the caller will read.  The run records the result (`Except.error` =
the exception propagated to the caller), the list of `time.sleep` durations
(`retry_delay * (retry_count + 1)`), and how many attempts were made. -/

/-- Outcome of one `requests.request` call. -/
inductive Attempt (α : Type) where
  | resp (status : Nat) (body : α)
  | exc
deriving DecidableEq, Repr

/-- What a `_make_request` run did: final result (or propagated exception),
backoff sleeps performed, number of attempts issued. -/
structure ReqRun (α : Type) where
  result : Except Unit (Nat × α)
  sleeps : List ℚ
  attempts : Nat

/-- `_make_request(method, endpoint, ..., retry_count)`: a 5xx response with
retry budget left sleeps `retry_delay * (retry_count + 1)` and recurses with
`retry_count + 1`; any other response is returned; an exception recurses the
same way if budget is left and otherwise propagates (`raise`). -/
def makeRequest {α : Type} (oracle : Nat → Attempt α) (maxRetries : Nat) (retryDelay : ℚ)
    (retryCount : Nat) : ReqRun α :=
  match oracle retryCount with
  | .resp status body =>
    if h : 500 ≤ status ∧ retryCount < maxRetries then
      let rest := makeRequest oracle maxRetries retryDelay (retryCount + 1)
      ⟨rest.result, retryDelay * ((retryCount : ℚ) + 1) :: rest.sleeps, rest.attempts + 1⟩
    else
      ⟨.ok (status, body), [], 1⟩
  | .exc =>
    if h : retryCount < maxRetries then
      let rest := makeRequest oracle maxRetries retryDelay (retryCount + 1)
      ⟨rest.result, retryDelay * ((retryCount : ℚ) + 1) :: rest.sleeps, rest.attempts + 1⟩
    else
      ⟨.error (), [], 1⟩
termination_by maxRetries - retryCount
decreasing_by all_goals omega

/-- An attempt outcome that `_make_request` treats as retryable: a 5xx
response or a raised exception. -/
def isTransient {α : Type} : Attempt α → Prop
  | .resp s _ => 500 ≤ s
  | .exc => True

instance {α : Type} (a : Attempt α) : Decidable (isTransient a) :=
  match a with
  | .resp s _ => inferInstanceAs (Decidable (500 ≤ s))
  | .exc => inferInstanceAs (Decidable True)

/-- Error surfaced by `client.get`/`client.post`/`client.delete`: either
`response.raise_for_status()` raised `requests.HTTPError` for a 4xx/5xx
status, or `_make_request` propagated a transport-level
`requests.RequestException` after exhausting retries. -/
inductive GetErr where
  | httpError (status : Nat)
  | transportErr
deriving DecidableEq, Repr

/-- `client.get(endpoint)`: run `_make_request('GET', ...)` from
`retry_count = 0`, call `raise_for_status()` (raises `HTTPError` on any
status ≥ 400), and return the parsed JSON body. -/
def clientGet {α : Type} (oracle : Nat → Attempt α) (maxRetries : Nat) (retryDelay : ℚ) :
    Except GetErr α :=
  match (makeRequest oracle maxRetries retryDelay 0).result with
  | .error _ => .error .transportErr
  | .ok (s, body) => if 400 ≤ s then .error (.httpError s) else .ok body

/-- `client.delete(endpoint)`: `True` for 200/204, otherwise
`raise_for_status()` (raising for ≥ 400) and `False` for the remaining
statuses. -/
def clientDelete {α : Type} (oracle : Nat → Attempt α) (maxRetries : Nat) (retryDelay : ℚ) :
    Except GetErr Bool :=
  match (makeRequest oracle maxRetries retryDelay 0).result with
  | .error _ => .error .transportErr
  | .ok (s, _) =>
    if s = 200 ∨ s = 204 then .ok true
    else if 400 ≤ s then .error (.httpError s) else .ok false

/-- The shared shape of the per-id accessors `get_control`, `get_process`,
`get_subprocess`, `get_entity`, `get_region`, `get_auditable_entity`:
`data.get(key, [])` is the oracle body (a list; an absent key is `[]`);
the first element is returned, `None` for an empty list, and a
`requests.HTTPError` from the GET is caught and turned into `None`.
A transport-level `requests.RequestException` is NOT caught by the
`except requests.HTTPError` clause and propagates (`Except.error ()`). -/
def getFirstById {α : Type} (g : Except GetErr (List α)) : Except Unit (Option α) :=
  match g with
  | .ok items => .ok items.head?
  | .error (.httpError _) => .ok none
  | .error .transportErr => .error ()

/-- `client.get_control(control_id)`; the oracle body is the array under the
`'controls'` key of the JSON response. -/
def get_control (oracle : Nat → Attempt (List Control)) (maxRetries : Nat) (retryDelay : ℚ) :
    Except Unit (Option Control) :=
  getFirstById (clientGet oracle maxRetries retryDelay)

/-- `client.get_process(process_id)` (array under `'processes'`). -/
def get_process (oracle : Nat → Attempt (List Process)) (maxRetries : Nat) (retryDelay : ℚ) :
    Except Unit (Option Process) :=
  getFirstById (clientGet oracle maxRetries retryDelay)

/-- `client.get_subprocess(subprocess_id)` (array under `'subprocesses'`). -/
def get_subprocess (oracle : Nat → Attempt (List Subprocess)) (maxRetries : Nat)
    (retryDelay : ℚ) : Except Unit (Option Subprocess) :=
  getFirstById (clientGet oracle maxRetries retryDelay)

/-- `client.get_entity(entity_id)` (array under `'entities'`). -/
def get_entity (oracle : Nat → Attempt (List Entity)) (maxRetries : Nat) (retryDelay : ℚ) :
    Except Unit (Option Entity) :=
  getFirstById (clientGet oracle maxRetries retryDelay)

/-- `client.get_region(region_id)` (array under `'regions'`). -/
def get_region (oracle : Nat → Attempt (List RegionRec)) (maxRetries : Nat) (retryDelay : ℚ) :
    Except Unit (Option RegionRec) :=
  getFirstById (clientGet oracle maxRetries retryDelay)

/-- `client.get_auditable_entity(entity_id)` (array under
`'auditable_entities'`). -/
def get_auditable_entity (oracle : Nat → Attempt (List Entity)) (maxRetries : Nat)
    (retryDelay : ℚ) : Except Unit (Option Entity) :=
  getFirstById (clientGet oracle maxRetries retryDelay)

/-! ### Step lemmas for the retry recursion -/

/-- A non-5xx response at any attempt is returned immediately, with no sleep
and exactly one (further) attempt. -/
lemma makeRequest_now {α : Type} {oracle : Nat → Attempt α} {mr : Nat} {rd : ℚ} {rc s : Nat}
    {b : α} (h : oracle rc = .resp s b) (hs : s < 500) :
    makeRequest oracle mr rd rc = ⟨.ok (s, b), [], 1⟩ := by
  rw [makeRequest.eq_def, h]
  simp only []
  rw [dif_neg (show ¬(500 ≤ s ∧ rc < mr) by omega)]

/-- A 5xx response with budget left sleeps and retries. -/
lemma makeRequest_retry_5xx {α : Type} {oracle : Nat → Attempt α} {mr : Nat} {rd : ℚ}
    {rc s : Nat} {b : α} (h : oracle rc = .resp s b) (hs : 500 ≤ s) (hrc : rc < mr) :
    makeRequest oracle mr rd rc =
      ⟨(makeRequest oracle mr rd (rc + 1)).result,
       rd * ((rc : ℚ) + 1) :: (makeRequest oracle mr rd (rc + 1)).sleeps,
       (makeRequest oracle mr rd (rc + 1)).attempts + 1⟩ := by
  rw [makeRequest.eq_def, h]
  simp only []
  rw [dif_pos (⟨hs, hrc⟩ : 500 ≤ s ∧ rc < mr)]

/-- An exception with budget left sleeps and retries. -/
lemma makeRequest_retry_exc {α : Type} {oracle : Nat → Attempt α} {mr : Nat} {rd : ℚ}
    {rc : Nat} (h : oracle rc = .exc) (hrc : rc < mr) :
    makeRequest oracle mr rd rc =
      ⟨(makeRequest oracle mr rd (rc + 1)).result,
       rd * ((rc : ℚ) + 1) :: (makeRequest oracle mr rd (rc + 1)).sleeps,
       (makeRequest oracle mr rd (rc + 1)).attempts + 1⟩ := by
  rw [makeRequest.eq_def, h]
  simp only []
  rw [dif_pos hrc]

/-- A 5xx response with the budget exhausted is returned as-is. -/
lemma makeRequest_exhaust_5xx {α : Type} {oracle : Nat → Attempt α} {mr : Nat} {rd : ℚ}
    {rc s : Nat} {b : α} (h : oracle rc = .resp s b) (hrc : ¬rc < mr) :
    makeRequest oracle mr rd rc = ⟨.ok (s, b), [], 1⟩ := by
  rw [makeRequest.eq_def, h]
  simp only []
  rw [dif_neg (show ¬(500 ≤ s ∧ rc < mr) from fun hc => hrc hc.2)]

/-- An exception with the budget exhausted propagates. -/
lemma makeRequest_exhaust_exc {α : Type} {oracle : Nat → Attempt α} {mr : Nat} {rd : ℚ}
    {rc : Nat} (h : oracle rc = .exc) (hrc : ¬rc < mr) :
    makeRequest oracle mr rd rc = ⟨.error (), [], 1⟩ := by
  rw [makeRequest.eq_def, h]
  simp only []
  rw [dif_neg hrc]

/-- A transient outcome with budget left always retries (uniform form of the
two retry lemmas). -/
lemma makeRequest_retry {α : Type} {oracle : Nat → Attempt α} {mr : Nat} {rd : ℚ} {rc : Nat}
    (h : isTransient (oracle rc)) (hrc : rc < mr) :
    makeRequest oracle mr rd rc =
      ⟨(makeRequest oracle mr rd (rc + 1)).result,
       rd * ((rc : ℚ) + 1) :: (makeRequest oracle mr rd (rc + 1)).sleeps,
       (makeRequest oracle mr rd (rc + 1)).attempts + 1⟩ := by
  cases ho : oracle rc with
  | resp s b =>
    have hs : 500 ≤ s := by rw [ho] at h; exact h
    exact makeRequest_retry_5xx ho hs hrc
  | exc => exact makeRequest_retry_exc ho hrc

/-- Attempt-count bound: starting at `retry_count = rc`, at most
`maxRetries - rc + 1` attempts are issued. -/
lemma makeRequest_attempts_le {α : Type} (oracle : Nat → Attempt α) (mr : Nat) (rd : ℚ) :
    ∀ (fuel rc : Nat), mr - rc ≤ fuel →
      (makeRequest oracle mr rd rc).attempts ≤ mr - rc + 1 := by
  intro fuel
  induction fuel with
  | zero =>
    intro rc hf
    have hrc : ¬rc < mr := by omega
    cases ho : oracle rc with
    | resp s b =>
      by_cases hs : s < 500
      · rw [makeRequest_now ho hs]; show 1 ≤ mr - rc + 1; omega
      · rw [makeRequest_exhaust_5xx ho hrc]; show 1 ≤ mr - rc + 1; omega
    | exc => rw [makeRequest_exhaust_exc ho hrc]; show 1 ≤ mr - rc + 1; omega
  | succ n ih =>
    intro rc hf
    by_cases hrc : rc < mr
    · cases ho : oracle rc with
      | resp s b =>
        by_cases hs : s < 500
        · rw [makeRequest_now ho hs]; show 1 ≤ mr - rc + 1; omega
        · rw [makeRequest_retry_5xx ho (by omega) hrc]
          show (makeRequest oracle mr rd (rc + 1)).attempts + 1 ≤ mr - rc + 1
          have := ih (rc + 1) (by omega)
          omega
      | exc =>
        rw [makeRequest_retry_exc ho hrc]
        show (makeRequest oracle mr rd (rc + 1)).attempts + 1 ≤ mr - rc + 1
        have := ih (rc + 1) (by omega)
        omega
    · cases ho : oracle rc with
      | resp s b =>
        by_cases hs : s < 500
        · rw [makeRequest_now ho hs]; show 1 ≤ mr - rc + 1; omega
        · rw [makeRequest_exhaust_5xx ho hrc]; show 1 ≤ mr - rc + 1; omega
      | exc => rw [makeRequest_exhaust_exc ho hrc]; show 1 ≤ mr - rc + 1; omega

/-- Success within budget: if the first `i` attempts are transient and the
attempt at index `rc + i` (still within budget) yields a non-5xx response, the
run returns that response, having slept the linear backoff sequence and made
`i + 1` attempts. -/
lemma makeRequest_success {α : Type} (oracle : Nat → Attempt α) (mr : Nat) (rd : ℚ) :
    ∀ (i rc s : Nat) (b : α), rc + i ≤ mr →
      (∀ j, j < i → isTransient (oracle (rc + j))) →
      oracle (rc + i) = .resp s b → s < 500 →
      makeRequest oracle mr rd rc =
        ⟨.ok (s, b), (List.range i).map (fun j => rd * (((rc + j : Nat) : ℚ) + 1)), i + 1⟩ := by
  intro i
  induction i with
  | zero =>
    intro rc s b _ _ ho hs
    simp only [Nat.add_zero] at ho
    rw [makeRequest_now ho hs]
    simp
  | succ n ih =>
    intro rc s b hle htr ho hs
    have h0 : isTransient (oracle rc) := by simpa using htr 0 (by omega)
    rw [makeRequest_retry h0 (by omega)]
    have hrec := ih (rc + 1) s b (by omega)
      (fun j hj => by
        have := htr (j + 1) (by omega)
        simpa [Nat.add_assoc, Nat.add_comm 1 j] using this)
      (by simpa [Nat.add_assoc, Nat.add_comm 1 n] using ho) hs
    rw [hrec]
    show (⟨.ok (s, b),
        rd * ((rc : ℚ) + 1) :: (List.range n).map (fun j => rd * (((rc + 1 + j : Nat) : ℚ) + 1)),
        n + 1 + 1⟩ : ReqRun α) = _
    simp only [ReqRun.mk.injEq, true_and, and_true]
    rw [List.range_succ_eq_map, List.map_cons, List.map_map]
    refine congrArg₂ List.cons ?_ ?_
    · show rd * ((rc : ℚ) + 1) = rd * (((rc + 0 : Nat) : ℚ) + 1)
      push_cast
      ring
    · apply List.map_congr_left
      intro j _
      show rd * (((rc + 1 + j : Nat) : ℚ) + 1) = rd * (((rc + (j + 1) : Nat) : ℚ) + 1)
      push_cast
      ring

/-- Full exhaustion by exceptions: if every attempt from `rc` through `mr`
raises, the exception propagates after `mr - rc + 1` attempts. -/
lemma makeRequest_all_exc {α : Type} (oracle : Nat → Attempt α) (mr : Nat) (rd : ℚ) :
    ∀ (i rc : Nat), rc + i = mr → (∀ j, j ≤ i → oracle (rc + j) = Attempt.exc) →
      (makeRequest oracle mr rd rc).result = .error () ∧
      (makeRequest oracle mr rd rc).attempts = i + 1 := by
  intro i
  induction i with
  | zero =>
    intro rc hrc hall
    have h0 : oracle rc = Attempt.exc := by simpa using hall 0 (by omega)
    rw [makeRequest_exhaust_exc h0 (by omega)]
    exact ⟨rfl, rfl⟩
  | succ n ih =>
    intro rc hrc hall
    have h0 : oracle rc = Attempt.exc := by simpa using hall 0 (by omega)
    rw [makeRequest_retry_exc h0 (by omega)]
    have hrec := ih (rc + 1) (by omega)
      (fun j hj => by
        have := hall (j + 1) (by omega)
        simpa [Nat.add_assoc, Nat.add_comm 1 j] using this)
    refine ⟨hrec.1, ?_⟩
    show (makeRequest oracle mr rd (rc + 1)).attempts + 1 = n + 1 + 1
    have h2 := hrec.2
    omega

/-- Exhaustion ending in a 5xx: if all attempts before `mr` are transient and
the final attempt returns a 5xx response, `_make_request` returns that
response (and `client.get` then raises `HTTPError` on it). -/
lemma makeRequest_final_5xx {α : Type} (oracle : Nat → Attempt α) (mr : Nat) (rd : ℚ) :
    ∀ (i rc s : Nat) (b : α), rc + i = mr →
      (∀ j, j < i → isTransient (oracle (rc + j))) →
      oracle mr = .resp s b → 500 ≤ s →
      (makeRequest oracle mr rd rc).result = .ok (s, b) ∧
      (makeRequest oracle mr rd rc).attempts = i + 1 := by
  intro i
  induction i with
  | zero =>
    intro rc s b hrc _ ho hs
    subst hrc
    simp only [Nat.add_zero] at ho
    rw [makeRequest_exhaust_5xx ho (by omega)]
    exact ⟨rfl, rfl⟩
  | succ n ih =>
    intro rc s b hrc htr ho hs
    have h0 : isTransient (oracle rc) := by simpa using htr 0 (by omega)
    rw [makeRequest_retry h0 (by omega)]
    have hrec := ih (rc + 1) s b (by omega)
      (fun j hj => by
        have := htr (j + 1) (by omega)
        simpa [Nat.add_assoc, Nat.add_comm 1 j] using this) ho hs
    refine ⟨hrec.1, ?_⟩
    show (makeRequest oracle mr rd (rc + 1)).attempts + 1 = n + 1 + 1
    have h2 := hrec.2
    omega

/-! ### Claim theorems C3, C4 -/

/-- C3: per request, a 5xx response or a network exception is retried after a
sleep of `retry_delay * (attempt + 1)`, at most `max_retries` times (so at
most `max_retries + 1` attempts in total); a non-5xx response obtained within
the budget is returned (so a 4xx is returned at the attempt it occurs, with
no further retry, and surfaces as an `HTTPError` from `client.get`); all
attempts raising exhausts the budget and propagates the failure; a final 5xx
after exhausting the budget is returned to `client.get`, which raises it. -/
theorem C3_retry_policy {α : Type} (oracle : Nat → Attempt α) (mr : Nat) (rd : ℚ) :
    ((makeRequest oracle mr rd 0).attempts ≤ mr + 1) ∧
    (∀ rc, rc < mr → isTransient (oracle rc) →
      makeRequest oracle mr rd rc =
        ⟨(makeRequest oracle mr rd (rc + 1)).result,
         rd * ((rc : ℚ) + 1) :: (makeRequest oracle mr rd (rc + 1)).sleeps,
         (makeRequest oracle mr rd (rc + 1)).attempts + 1⟩) ∧
    (∀ i s (b : α), i ≤ mr → (∀ j, j < i → isTransient (oracle j)) →
      oracle i = .resp s b → s < 500 →
      makeRequest oracle mr rd 0 =
        ⟨.ok (s, b), (List.range i).map (fun (j : Nat) => rd * ((j : ℚ) + 1)), i + 1⟩) ∧
    ((∀ j, j ≤ mr → oracle j = Attempt.exc) →
      (makeRequest oracle mr rd 0).result = .error () ∧
      (makeRequest oracle mr rd 0).attempts = mr + 1) ∧
    (∀ s (b : α), (∀ j, j < mr → isTransient (oracle j)) → oracle mr = .resp s b → 500 ≤ s →
      (makeRequest oracle mr rd 0).result = .ok (s, b) ∧
      clientGet oracle mr rd = .error (.httpError s)) ∧
    (∀ s (b : α), oracle 0 = .resp s b → 400 ≤ s → s < 500 →
      makeRequest oracle mr rd 0 = ⟨.ok (s, b), [], 1⟩ ∧
      clientGet oracle mr rd = .error (.httpError s)) := by
  refine ⟨?_, ?_, ?_, ?_, ?_, ?_⟩
  · simpa using makeRequest_attempts_le oracle mr rd mr 0 (by omega)
  · intro rc hrc htr
    exact makeRequest_retry htr hrc
  · intro i s b hle htr ho hs
    simpa using makeRequest_success oracle mr rd i 0 s b (by omega) (by simpa using htr)
      (by simpa using ho) hs
  · intro hall
    exact makeRequest_all_exc oracle mr rd mr 0 (by omega) (fun j hj => by simpa using hall j hj)
  · intro s b htr ho hs
    have h := makeRequest_final_5xx oracle mr rd mr 0 s b (by omega) (by simpa using htr) ho hs
    refine ⟨h.1, ?_⟩
    unfold clientGet
    rw [h.1]
    simp only [if_pos (by omega : 400 ≤ s)]
  · intro s b ho h4 h5
    have h : makeRequest oracle mr rd 0 = ⟨.ok (s, b), [], 1⟩ := makeRequest_now ho h5
    refine ⟨h, ?_⟩
    unfold clientGet
    rw [h]
    simp only [if_pos h4]

/-- Witness for C3 at a concrete oracle: two exceptions then a 200 response,
with `max_retries = 3` and `retry_delay = 2`: the success is returned after
3 attempts with backoff sleeps 2 and 4. -/
theorem C3_retry_policy_witness :
    makeRequest (fun j => if j < 2 then Attempt.exc else Attempt.resp 200 (42 : Nat)) 3 2 0 =
      ⟨.ok (200, 42), [2, 4], 3⟩ := by
  have h := (C3_retry_policy (fun j => if j < 2 then Attempt.exc else Attempt.resp 200 (42 : Nat))
    3 2).2.2.1 2 200 42 (by omega)
    (fun j hj => by interval_cases j <;> simp [isTransient])
    (by norm_num) (by omega)
  rw [h]
  norm_num [List.range_succ]

/-- C4 counterexample: the claim says the per-id accessors never raise, even
on a transport-level failure after retry exhaustion; but `get_control` only
catches `requests.HTTPError`, so with every attempt raising a connection
error (`max_retries = 1`) the exception propagates out of `get_control`. -/
theorem C4_counterexample_transport_failure_raises :
    get_control (fun _ => Attempt.exc) 1 2 = Except.error () := by
  have h := makeRequest_all_exc (fun _ => (Attempt.exc : Attempt (List Control))) 1 2 1 0
    (by omega) (fun j _ => rfl)
  unfold get_control getFirstById clientGet
  rw [h.1]

/-- C4 (amended): the per-id accessors return the first element of the array
under the resource key, `None` when that array is empty, and `None` (without
raising) when the GET fails with an HTTP error status; but a transport-level
failure after retry exhaustion is not caught and propagates to the caller. -/
theorem C4_per_id_accessors_error_behaviour
    (oc : Nat → Attempt (List Control)) (op : Nat → Attempt (List Process))
    (osp : Nat → Attempt (List Subprocess)) (oe : Nat → Attempt (List Entity))
    (org : Nat → Attempt (List RegionRec)) (oae : Nat → Attempt (List Entity))
    (mr : Nat) (rd : ℚ) :
    (∀ items, clientGet oc mr rd = .ok items → get_control oc mr rd = .ok items.head?) ∧
    (∀ s, clientGet oc mr rd = .error (.httpError s) → get_control oc mr rd = .ok none) ∧
    (clientGet oc mr rd = .error .transportErr → get_control oc mr rd = .error ()) ∧
    (∀ items, clientGet op mr rd = .ok items → get_process op mr rd = .ok items.head?) ∧
    (∀ s, clientGet op mr rd = .error (.httpError s) → get_process op mr rd = .ok none) ∧
    (clientGet op mr rd = .error .transportErr → get_process op mr rd = .error ()) ∧
    (∀ items, clientGet osp mr rd = .ok items → get_subprocess osp mr rd = .ok items.head?) ∧
    (∀ s, clientGet osp mr rd = .error (.httpError s) → get_subprocess osp mr rd = .ok none) ∧
    (clientGet osp mr rd = .error .transportErr → get_subprocess osp mr rd = .error ()) ∧
    (∀ items, clientGet oe mr rd = .ok items → get_entity oe mr rd = .ok items.head?) ∧
    (∀ s, clientGet oe mr rd = .error (.httpError s) → get_entity oe mr rd = .ok none) ∧
    (clientGet oe mr rd = .error .transportErr → get_entity oe mr rd = .error ()) ∧
    (∀ items, clientGet org mr rd = .ok items → get_region org mr rd = .ok items.head?) ∧
    (∀ s, clientGet org mr rd = .error (.httpError s) → get_region org mr rd = .ok none) ∧
    (clientGet org mr rd = .error .transportErr → get_region org mr rd = .error ()) ∧
    (∀ items, clientGet oae mr rd = .ok items → get_auditable_entity oae mr rd = .ok items.head?) ∧
    (∀ s, clientGet oae mr rd = .error (.httpError s) → get_auditable_entity oae mr rd = .ok none) ∧
    (clientGet oae mr rd = .error .transportErr → get_auditable_entity oae mr rd = .error ()) := by
  refine ⟨?_, ?_, ?_, ?_, ?_, ?_, ?_, ?_, ?_, ?_, ?_, ?_, ?_, ?_, ?_, ?_, ?_, ?_⟩ <;>
    first
    | (intro x h
       simp [get_control, get_process, get_subprocess, get_entity, get_region,
         get_auditable_entity, getFirstById, h])
    | (intro h
       simp [get_control, get_process, get_subprocess, get_entity, get_region,
         get_auditable_entity, getFirstById, h])

/-- Witness for the amended C4 at a concrete 404 (`HTTPError` is caught and
`None` is returned). -/
theorem C4_per_id_accessors_error_behaviour_witness :
    get_control (fun _ => Attempt.resp 404 ([] : List Control)) 3 2 = Except.ok none := by
  have hreq : makeRequest (fun _ => Attempt.resp 404 ([] : List Control)) 3 2 0
      = ⟨.ok (404, []), [], 1⟩ := makeRequest_now rfl (by omega)
  have hget : clientGet (fun _ => Attempt.resp 404 ([] : List Control)) 3 2
      = .error (.httpError 404) := by
    unfold clientGet
    rw [hreq]
    rfl
  exact (C4_per_id_accessors_error_behaviour
    (fun _ => Attempt.resp 404 ([] : List Control))
    (fun _ => Attempt.exc) (fun _ => Attempt.exc) (fun _ => Attempt.exc)
    (fun _ => Attempt.exc) (fun _ => Attempt.exc) 3 2).2.1 404 hget

/-! ### Safety gate (scripts/core/safety.py)

`SafetyChecker.confirm_deletion` and the module-level `is_dry_run` are pure
given the interactive input and the environment, which are passed
explicitly.  The logging around the prompt is dropped; whether the prompt
was shown (i.e. `input()` was reached) is returned as the second component. -/

/-- Python `str.lower` (per-character lowering; the values compared here are
ASCII).  Defined over the character list so that it is kernel-computable. -/
def strLower (s : String) : String := ⟨s.data.map Char.toLower⟩

/-- Python `str.upper` (per-character uppering, ASCII). -/
def strUpper (s : String) : String := ⟨s.data.map Char.toUpper⟩

/-- What `input()` produced: a line, or `EOFError`/`KeyboardInterrupt`. -/
inductive UserInput where
  | line (s : String)
  | interrupted
deriving DecidableEq, Repr

/-- `SafetyChecker.confirm_deletion(item_type, item_count, confirmation_text,
skip_confirm)` with `self.dry_run = dryRun`: dry-run and `skip_confirm` both
return `True` with no prompt; otherwise the typed line must equal the
confirmation text, which defaults to `"DELETE " + count + " " + TYPE` with
the item type uppercased; EOF or a keyboard interrupt yields `False`.
Returns (result, prompt-was-shown). -/
def confirm_deletion (dryRun : Bool) (item_type : String) (item_count : Nat)
    (confirmation_text : Option String) (skip_confirm : Bool) (inp : UserInput) :
    Bool × Bool :=
  if dryRun then (true, false)
  else if skip_confirm then (true, false)
  else
    let text := confirmation_text.getD
      ("DELETE " ++ toString item_count ++ " " ++ strUpper item_type)
    match inp with
    | .line s => (s == text, true)
    | .interrupted => (false, true)

/-- `is_dry_run()`: `--dry-run` in `sys.argv` wins, then `--live`, then the
`DRY_RUN` environment variable (`None` = unset, defaulting to `'true'`),
lowercased and compared against `['true', '1', 'yes']`. -/
def is_dry_run (argv : List String) (dry_run_env : Option String) : Bool :=
  if "--dry-run" ∈ argv then true
  else if "--live" ∈ argv then false
  else decide (strLower (dry_run_env.getD "true") ∈ (["true", "1", "yes"] : List String))

/-! ### Dependency checkers (scripts/discovery/find_dependencies.py) -/

/-- Python membership `opt in ids` where `opt` is `dict.get(...)` over a list
of ints: `None` is never a member; a present value is tested by equality. -/
def optMem (x : Option Int) (ids : List Int) : Bool :=
  match x with
  | some v => ids.contains v
  | none => false

/-- Result dict of `check_entity_dependencies`. -/
structure EntityDepResults where
  entity_ids : List Int
  has_dependencies : Bool
  processes_data : List PDatum
  processes_data_count : Nat
deriving DecidableEq, Repr

/-- `check_entity_dependencies(entity_ids, ...)`: filter all `processes_data`
records whose `entity_id` is in `entity_ids` and report them all. -/
def check_entity_dependencies (entity_ids : List Int) (all_pd : List PDatum) :
    EntityDepResults :=
  let entity_pd := all_pd.filter (fun pd => optMem pd.entity_id entity_ids)
  { entity_ids := entity_ids,
    has_dependencies := decide (0 < entity_pd.length),
    processes_data := entity_pd,
    processes_data_count := entity_pd.length }

/-- Result dict of `check_process_dependencies`. -/
structure ProcessDepResults where
  process_ids : List Int
  has_dependencies : Bool
  subprocesses : List Subprocess
  subprocesses_count : Nat
deriving DecidableEq, Repr

/-- `check_process_dependencies(process_ids, ...)`: filter all subprocesses
whose `process_id` is in `process_ids`. -/
def check_process_dependencies (process_ids : List Int) (all_sp : List Subprocess) :
    ProcessDepResults :=
  let process_subprocesses := all_sp.filter (fun sp => optMem sp.process_id process_ids)
  { process_ids := process_ids,
    has_dependencies := decide (0 < process_subprocesses.length),
    subprocesses := process_subprocesses,
    subprocesses_count := process_subprocesses.length }

/-- Result dict of `check_subprocess_dependencies`. -/
structure SubprocessDepResults where
  subprocess_ids : List Int
  has_dependencies : Bool
  controls : List Control
  controls_count : Nat
deriving DecidableEq, Repr

/-- `check_subprocess_dependencies(subprocess_ids, ...)`: filter all controls
whose `subprocess_id` is in `subprocess_ids`. -/
def check_subprocess_dependencies (subprocess_ids : List Int) (all_controls : List Control) :
    SubprocessDepResults :=
  let subprocess_controls := all_controls.filter (fun c => optMem c.subprocess_id subprocess_ids)
  { subprocess_ids := subprocess_ids,
    has_dependencies := decide (0 < subprocess_controls.length),
    controls := subprocess_controls,
    controls_count := subprocess_controls.length }

/-- Result dict of `check_region_dependencies` (find_dependencies.py). -/
structure RegionDepResults where
  region_id : Int
  has_dependencies : Bool
  entities : List Entity
  entities_count : Nat
  processes : List Process
  processes_count : Nat
deriving DecidableEq, Repr

/-- `check_region_dependencies(region_id, ...)`: entities and processes whose
`region_id` equals the given region id (Python `==`; an absent key compares
unequal to an int). -/
def check_region_dependencies (region_id : Int) (all_entities : List Entity)
    (all_processes : List Process) : RegionDepResults :=
  let region_entities := all_entities.filter (fun e => e.region_id == some region_id)
  let region_processes := all_processes.filter (fun p => p.region_id == some region_id)
  { region_id := region_id,
    has_dependencies := decide (0 < region_entities.length) || decide (0 < region_processes.length),
    entities := region_entities,
    entities_count := region_entities.length,
    processes := region_processes,
    processes_count := region_processes.length }

/-! ### Region deletion (scripts/deletion/delete_region.py) -/

/-- The local `dependencies` dict of `delete_region.check_region_dependencies`. -/
structure RegionDeps where
  entities : List Entity
  processes : List Process
deriving DecidableEq, Repr

/-- `delete_region.check_region_dependencies(region_id, ...)`: returns
`(safe, dependencies)` — `safe = False` exactly when some entity or process
carries this `region_id`. -/
def check_region_dependencies_dr (region_id : Int) (all_entities : List Entity)
    (all_processes : List Process) : Bool × RegionDeps :=
  let es := all_entities.filter (fun e => e.region_id == some region_id)
  let ps := all_processes.filter (fun p => p.region_id == some region_id)
  let has_dependencies := decide (0 < es.length) || decide (0 < ps.length)
  (!has_dependencies, ⟨es, ps⟩)

/-- Result dict of `delete_region` (minus `timestamp`); keys absent in a
given branch are `none` (the "Region not found" and "Dependencies exist"
returns carry no `region_id`/`region_name`, and only the dependency return
carries `dependencies`). -/
structure RegionDelResult where
  dry_run : Bool
  success : Bool
  error : Option String
  dependencies : Option RegionDeps
  region_id : Option Int
  region_name : Option (Option String)
deriving DecidableEq, Repr

/-- `delete_region(region_id, client, logger, config, dry_run, force)`:
fetch the region (`none` = not found); unless forced, abort with
"Dependencies exist" when the dependency check is unsafe; in live mode, a
declined confirmation or interrupted countdown exits (`none`); otherwise
dry-run succeeds virtually and live mode issues the one HTTP DELETE whose
outcome is `delOutcome`.  The trace lists region ids passed to
`client.delete_region`. -/
def delete_region (region_id : Int) (region : Option RegionRec)
    (all_entities : List Entity) (all_processes : List Process)
    (dryRun force confirmOk countdownOk : Bool) (delOutcome : DelOutcome) :
    Option (RegionDelResult × List Int) :=
  match region with
  | none =>
    some ({ dry_run := dryRun, success := false, error := some "Region not found",
            dependencies := none, region_id := none, region_name := none }, [])
  | some reg =>
    let chk := check_region_dependencies_dr region_id all_entities all_processes
    if !force && !chk.1 then
      some ({ dry_run := dryRun, success := false, error := some "Dependencies exist",
              dependencies := some chk.2, region_id := none, region_name := none }, [])
    else if !dryRun && !confirmOk then
      none
    else if !dryRun && !countdownOk then
      none
    else if dryRun then
      some ({ dry_run := dryRun, success := true, error := none, dependencies := none,
              region_id := some region_id, region_name := some reg.name }, [])
    else
      match delOutcome with
      | .ok =>
        some ({ dry_run := dryRun, success := true, error := none, dependencies := none,
                region_id := some region_id, region_name := some reg.name }, [region_id])
      | .failed =>
        some ({ dry_run := dryRun, success := false, error := some "API deletion failed",
                dependencies := none, region_id := some region_id,
                region_name := some reg.name }, [region_id])
      | .exc m =>
        some ({ dry_run := dryRun, success := false, error := some m, dependencies := none,
                region_id := some region_id, region_name := some reg.name }, [region_id])

/-! ### Claim theorems C5, C6, C8, C10 -/

/-- C5: for each dependency checker, `has_dependencies` is `False` exactly
when no child record matches the foreign-key filter; any nonzero match count
sets it to `True`, and the result carries every matching record (hence at
least the first `min(N, 10)`) together with the full count. -/
theorem C5_dependency_checkers_report_blockers
    (entity_ids process_ids subprocess_ids : List Int) (region_id : Int)
    (all_pd : List PDatum) (all_sp : List Subprocess) (all_controls : List Control)
    (all_entities : List Entity) (all_processes : List Process) :
    (let m := all_pd.filter (fun pd => optMem pd.entity_id entity_ids)
     let r := check_entity_dependencies entity_ids all_pd
     (r.has_dependencies = false ↔ m = []) ∧ r.processes_data = m ∧
       r.processes_data_count = m.length ∧
       (m ≠ [] → r.has_dependencies = true ∧
         r.processes_data.take (min m.length 10) = m.take (min m.length 10))) ∧
    (let m := all_sp.filter (fun sp => optMem sp.process_id process_ids)
     let r := check_process_dependencies process_ids all_sp
     (r.has_dependencies = false ↔ m = []) ∧ r.subprocesses = m ∧
       r.subprocesses_count = m.length ∧
       (m ≠ [] → r.has_dependencies = true ∧
         r.subprocesses.take (min m.length 10) = m.take (min m.length 10))) ∧
    (let m := all_controls.filter (fun c => optMem c.subprocess_id subprocess_ids)
     let r := check_subprocess_dependencies subprocess_ids all_controls
     (r.has_dependencies = false ↔ m = []) ∧ r.controls = m ∧
       r.controls_count = m.length ∧
       (m ≠ [] → r.has_dependencies = true ∧
         r.controls.take (min m.length 10) = m.take (min m.length 10))) ∧
    (let me := all_entities.filter (fun e => e.region_id == some region_id)
     let mp := all_processes.filter (fun p => p.region_id == some region_id)
     let r := check_region_dependencies region_id all_entities all_processes
     (r.has_dependencies = false ↔ (me = [] ∧ mp = [])) ∧
       r.entities = me ∧ r.entities_count = me.length ∧
       r.processes = mp ∧ r.processes_count = mp.length ∧
       (me ≠ [] ∨ mp ≠ [] → r.has_dependencies = true)) := by
  refine ⟨⟨?_, rfl, rfl, ?_⟩, ⟨?_, rfl, rfl, ?_⟩, ⟨?_, rfl, rfl, ?_⟩, ⟨?_, rfl, rfl, rfl, rfl, ?_⟩⟩
  · simp [check_entity_dependencies, List.length_eq_zero]
  · intro hm
    refine ⟨?_, rfl⟩
    simp [check_entity_dependencies, List.length_pos, hm]
  · simp [check_process_dependencies, List.length_eq_zero]
  · intro hm
    refine ⟨?_, rfl⟩
    simp [check_process_dependencies, List.length_pos, hm]
  · simp [check_subprocess_dependencies, List.length_eq_zero]
  · intro hm
    refine ⟨?_, rfl⟩
    simp [check_subprocess_dependencies, List.length_pos, hm]
  · simp [check_region_dependencies, List.length_eq_zero]
  · intro hm
    rcases hm with hm | hm <;>
      simp [check_region_dependencies, List.length_pos, hm]

/-- Witness for C5: one junction record blocking entity 25 is reported with
`has_dependencies = true` and count 1. -/
theorem C5_dependency_checkers_report_blockers_witness :
    (check_entity_dependencies [25] [⟨some 7, some 25, some 48⟩]).has_dependencies = true ∧
    (check_entity_dependencies [25] [⟨some 7, some 25, some 48⟩]).processes_data_count = 1 := by
  have h := (C5_dependency_checkers_report_blockers [25] [] [] 0
    [⟨some 7, some 25, some 48⟩] [] [] [] []).1
  exact ⟨(h.2.2.2 (by simp [optMem])).1, by
    have h3 := h.2.2.1
    simpa [optMem] using h3⟩

/-- C6: a region with at least one entity or process carrying its id, deleted
without `force`, yields `success = false` with error "Dependencies exist"
(carrying the blocking dependencies) and no HTTP DELETE is issued — in both
dry-run and live mode. -/
theorem C6_region_with_dependencies_never_deleted
    (region_id : Int) (reg : RegionRec) (all_entities : List Entity)
    (all_processes : List Process) (dryRun confirmOk countdownOk : Bool)
    (delOutcome : DelOutcome)
    (hdep : (∃ e ∈ all_entities, e.region_id = some region_id) ∨
            (∃ p ∈ all_processes, p.region_id = some region_id)) :
    delete_region region_id (some reg) all_entities all_processes
        dryRun false confirmOk countdownOk delOutcome
      = some ({ dry_run := dryRun, success := false, error := some "Dependencies exist",
                dependencies := some
                  ⟨all_entities.filter (fun e => e.region_id == some region_id),
                   all_processes.filter (fun p => p.region_id == some region_id)⟩,
                region_id := none, region_name := none }, []) := by
  have htrue : (decide (0 < (all_entities.filter (fun e => e.region_id == some region_id)).length)
      || decide (0 < (all_processes.filter (fun p => p.region_id == some region_id)).length))
        = true := by
    rcases hdep with ⟨e, he, hid⟩ | ⟨p, hp, hid⟩
    · have hmem : e ∈ all_entities.filter (fun e => e.region_id == some region_id) :=
        List.mem_filter.mpr ⟨he, by simp [hid]⟩
      have hlen : 0 < (all_entities.filter (fun e => e.region_id == some region_id)).length :=
        List.length_pos.mpr (fun hnil => by simp [hnil] at hmem)
      simp [hlen]
    · have hmem : p ∈ all_processes.filter (fun p => p.region_id == some region_id) :=
        List.mem_filter.mpr ⟨hp, by simp [hid]⟩
      have hlen : 0 < (all_processes.filter (fun p => p.region_id == some region_id)).length :=
        List.length_pos.mpr (fun hnil => by simp [hnil] at hmem)
      simp [hlen]
  simp [delete_region, check_region_dependencies_dr, htrue]

/-- Witness for C6, following the spec scenario: region 15 has two entities;
live deletion without force aborts with "Dependencies exist" and an empty
DELETE trace. -/
theorem C6_region_with_dependencies_never_deleted_witness :
    delete_region 15 (some ⟨some 15, some "EMEA", none⟩)
        [⟨some 1, some "A", none, some 15⟩, ⟨some 2, some "B", none, some 15⟩] []
        false false true true DelOutcome.ok
      = some ({ dry_run := false, success := false, error := some "Dependencies exist",
                dependencies := some
                  ⟨[⟨some 1, some "A", none, some 15⟩, ⟨some 2, some "B", none, some 15⟩], []⟩,
                region_id := none, region_name := none }, []) := by
  have h := C6_region_with_dependencies_never_deleted 15 ⟨some 15, some "EMEA", none⟩
    [⟨some 1, some "A", none, some 15⟩, ⟨some 2, some "B", none, some 15⟩] []
    false true true DelOutcome.ok (by left; exact ⟨⟨some 1, some "A", none, some 15⟩, by simp, rfl⟩)
  simpa using h

/-- C8: `confirm_deletion` returns `True` without prompting under dry-run or
`skip_confirm`; otherwise it returns `True` iff the typed line equals the
confirmation phrase (defaulting to `DELETE count TYPE` with the type
uppercased), and EOF/interrupt during input yields `False` (cancellation),
never an exception. -/
theorem C8_confirm_deletion_gate
    (dryRun skip : Bool) (item_type : String) (item_count : Nat)
    (ctext : Option String) (inp : UserInput) :
    (dryRun = true → confirm_deletion dryRun item_type item_count ctext skip inp = (true, false)) ∧
    (skip = true → confirm_deletion dryRun item_type item_count ctext skip inp = (true, false)) ∧
    (dryRun = false → skip = false → ∀ s, inp = .line s →
      ((confirm_deletion dryRun item_type item_count ctext skip inp).1 = true ↔
        s = ctext.getD ("DELETE " ++ toString item_count ++ " " ++ strUpper item_type))) ∧
    (dryRun = false → skip = false → inp = .interrupted →
      confirm_deletion dryRun item_type item_count ctext skip inp = (false, true)) := by
  refine ⟨?_, ?_, ?_, ?_⟩
  · intro h; subst h; simp [confirm_deletion]
  · intro h; subst h; cases dryRun <;> simp [confirm_deletion]
  · intro h1 h2 s hs; subst h1; subst h2; subst hs
    simp [confirm_deletion]
  · intro h1 h2 hi; subst h1; subst h2; subst hi
    simp [confirm_deletion]

/-- Witness for C8: typing the exact phrase "DELETE 2 CONTROLS" confirms a
live deletion of 2 controls. -/
theorem C8_confirm_deletion_gate_witness :
    (confirm_deletion false "controls" 2 none false (.line "DELETE 2 CONTROLS")).1 = true := by
  exact ((C8_confirm_deletion_gate false false "controls" 2 none
    (.line "DELETE 2 CONTROLS")).2.2.1 rfl rfl "DELETE 2 CONTROLS" rfl).mpr (by decide)

/-- C10: `--dry-run` beats `--live`; `--live` alone means live; with neither
flag the `DRY_RUN` environment variable decides, lowercased against
`'true'/'1'/'yes'`, and an unset environment defaults to dry-run. -/
theorem C10_is_dry_run_resolution (argv : List String) (env : Option String) :
    ("--dry-run" ∈ argv → is_dry_run argv env = true) ∧
    ("--dry-run" ∉ argv → "--live" ∈ argv → is_dry_run argv env = false) ∧
    ("--dry-run" ∉ argv → "--live" ∉ argv →
      (is_dry_run argv env = true ↔
        strLower (env.getD "true") ∈ (["true", "1", "yes"] : List String))) ∧
    ("--dry-run" ∉ argv → "--live" ∉ argv → env = none → is_dry_run argv env = true) := by
  refine ⟨?_, ?_, ?_, ?_⟩
  · intro h; simp [is_dry_run, h]
  · intro h1 h2; simp [is_dry_run, h1, h2]
  · intro h1 h2; simp [is_dry_run, h1, h2]
  · intro h1 h2 h3; subst h3; simp [is_dry_run, h1, h2]; left; decide

/-- Witness for C10: both flags present resolves to dry-run; `--live` alone
resolves to live; an unset environment without flags defaults to dry-run. -/
theorem C10_is_dry_run_resolution_witness :
    is_dry_run ["--dry-run", "--live"] none = true ∧
    is_dry_run ["--live"] none = false ∧
    is_dry_run [] none = true := by
  refine ⟨?_, ?_, ?_⟩
  · exact (C10_is_dry_run_resolution ["--dry-run", "--live"] none).1 (by simp)
  · exact (C10_is_dry_run_resolution ["--live"] none).2.1 (by simp) (by simp)
  · exact (C10_is_dry_run_resolution [] none).2.2.2 (by simp) (by simp) rfl

/-! ### Region analysis walker (scripts/discovery/analyze_region.py)

`analyze_region` resolves the region → entities → processes_data → processes
→ subprocesses_data → subprocesses → controls → controls_data hierarchy by
full-collection fetch plus client-side filtering.  The remote collections are
an environment record; each fetch the function performs is recorded as a
`FetchTag` in the returned trace.  The per-record projections
(`entity_info`, `proc_info`, ...) keep exactly the keys our record structures
model, so they are identities here.  `list(set(...))` is embedded as
`List.dedup` (the claims never depend on its ordering), and the derived
`summary` dict of counts and display strings is not modelled separately. -/

/-- One collection fetch performed by `analyze_region`. -/
inductive FetchTag where
  | getRegion
  | getEntities
  | getProcessesData
  | getProcesses
  | getSubprocessesData
  | getSubprocesses
  | getControls
  | getControlsData
deriving DecidableEq, Repr

/-- The remote collections visible to `analyze_region` (`region` is the
result of `client.get_region(region_id)`). -/
structure REnv where
  region : Option RegionRec
  entities : List Entity
  processes_data : List PDatum
  processes : List Process
  subprocesses_data : List SPDatum
  subprocesses : List Subprocess
  controls : List Control
  controls_data : List CDatum

/-- The `state` dict built by `analyze_region` (minus `timestamp` and the
derived `summary`). -/
structure AState where
  region_id : Int
  region : Option RegionRec
  entities : List Entity
  processes : List Process
  subprocesses : List Subprocess
  controls : List Control
  processes_data : List PDatum
  subprocesses_data : List SPDatum
  controls_data : List CDatum
deriving DecidableEq, Repr

/-- `region_entities`: entities whose `region_id` equals the region. -/
def ar_entities (region_id : Int) (env : REnv) : List Entity :=
  env.entities.filter (fun e => e.region_id == some region_id)

/-- `entity_ids = [e['id'] for e in state['entities']]`. -/
def ar_entity_ids (region_id : Int) (env : REnv) : List (Option Int) :=
  (ar_entities region_id env).map Entity.id

/-- `region_pd`: fetched and filtered only when `entity_ids` is nonempty. -/
def ar_pd (region_id : Int) (env : REnv) : List PDatum :=
  if (ar_entity_ids region_id env).isEmpty then []
  else env.processes_data.filter (fun pd => (ar_entity_ids region_id env).contains pd.entity_id)

/-- `process_ids = list(set(pd['process_id'] for pd in state['processes_data']))`. -/
def ar_process_ids (region_id : Int) (env : REnv) : List (Option Int) :=
  ((ar_pd region_id env).map PDatum.process_id).dedup

/-- `state['processes']`: for each process id, the first matching process in
the full collection, fetched only when `process_ids` is nonempty. -/
def ar_processes (region_id : Int) (env : REnv) : List Process :=
  if (ar_process_ids region_id env).isEmpty then []
  else (ar_process_ids region_id env).filterMap
    (fun pid => env.processes.find? (fun p => p.id == pid))

/-- `processes_data_ids = [pd['id'] for pd in state['processes_data']]`. -/
def ar_pd_ids (region_id : Int) (env : REnv) : List (Option Int) :=
  (ar_pd region_id env).map PDatum.id

/-- `region_spd`: fetched and filtered only when `processes_data_ids` is
nonempty. -/
def ar_spd (region_id : Int) (env : REnv) : List SPDatum :=
  if (ar_pd_ids region_id env).isEmpty then []
  else env.subprocesses_data.filter
    (fun spd => (ar_pd_ids region_id env).contains spd.processes_datum_id)

/-- `subprocess_ids = list(set(spd['subprocess_id'] for spd in ...))`. -/
def ar_subprocess_ids (region_id : Int) (env : REnv) : List (Option Int) :=
  ((ar_spd region_id env).map SPDatum.subprocess_id).dedup

/-- `state['subprocesses']`: first matching subprocess per id, fetched only
when `subprocess_ids` is nonempty. -/
def ar_subprocesses (region_id : Int) (env : REnv) : List Subprocess :=
  if (ar_subprocess_ids region_id env).isEmpty then []
  else (ar_subprocess_ids region_id env).filterMap
    (fun sid => env.subprocesses.find? (fun s => s.id == sid))

/-- `region_controls`: controls of the resolved subprocesses, fetched only
when `subprocess_ids` is nonempty. -/
def ar_controls (region_id : Int) (env : REnv) : List Control :=
  if (ar_subprocess_ids region_id env).isEmpty then []
  else env.controls.filter (fun c => (ar_subprocess_ids region_id env).contains c.subprocess_id)

/-- `control_ids = [c['id'] for c in state['controls']]`. -/
def ar_control_ids (region_id : Int) (env : REnv) : List (Option Int) :=
  (ar_controls region_id env).map Control.id

/-- `region_cd`: controls_data of the resolved controls, fetched only when
`control_ids` is nonempty. -/
def ar_cd (region_id : Int) (env : REnv) : List CDatum :=
  if (ar_control_ids region_id env).isEmpty then []
  else env.controls_data.filter (fun cd => (ar_control_ids region_id env).contains cd.control_id)

/-- `analyze_region(region_id, client, logger)`: on a missing region the
initial state (all collections empty, `region = None`) is returned after the
single region fetch; otherwise each level is resolved in order, skipping the
fetch of any level whose id collection is empty. -/
def analyze_region (region_id : Int) (env : REnv) : AState × List FetchTag :=
  match env.region with
  | none =>
    ({ region_id := region_id, region := none, entities := [], processes := [],
       subprocesses := [], controls := [], processes_data := [], subprocesses_data := [],
       controls_data := [] }, [.getRegion])
  | some reg =>
    ({ region_id := region_id,
       region := some reg,
       entities := ar_entities region_id env,
       processes := ar_processes region_id env,
       subprocesses := ar_subprocesses region_id env,
       controls := ar_controls region_id env,
       processes_data := ar_pd region_id env,
       subprocesses_data := ar_spd region_id env,
       controls_data := ar_cd region_id env },
     [FetchTag.getRegion, FetchTag.getEntities]
       ++ (if (ar_entity_ids region_id env).isEmpty then [] else [FetchTag.getProcessesData])
       ++ (if (ar_process_ids region_id env).isEmpty then [] else [FetchTag.getProcesses])
       ++ (if (ar_pd_ids region_id env).isEmpty then [] else [FetchTag.getSubprocessesData])
       ++ (if (ar_subprocess_ids region_id env).isEmpty then [] else [FetchTag.getSubprocesses])
       ++ (if (ar_subprocess_ids region_id env).isEmpty then [] else [FetchTag.getControls])
       ++ (if (ar_control_ids region_id env).isEmpty then [] else [FetchTag.getControlsData]))

/-! ### Short-circuit lemmas for the walker -/

lemma ar_pd_of_entities_empty (region_id : Int) (env : REnv)
    (h : ar_entities region_id env = []) : ar_pd region_id env = [] := by
  simp [ar_pd, ar_entity_ids, h]

lemma ar_process_ids_of_pd_empty (region_id : Int) (env : REnv)
    (h : ar_pd region_id env = []) : ar_process_ids region_id env = [] := by
  simp [ar_process_ids, h]

lemma ar_processes_of_pd_empty (region_id : Int) (env : REnv)
    (h : ar_pd region_id env = []) : ar_processes region_id env = [] := by
  simp [ar_processes, ar_process_ids_of_pd_empty region_id env h]

lemma ar_spd_of_pd_empty (region_id : Int) (env : REnv)
    (h : ar_pd region_id env = []) : ar_spd region_id env = [] := by
  simp [ar_spd, ar_pd_ids, h]

lemma ar_subprocess_ids_of_spd_empty (region_id : Int) (env : REnv)
    (h : ar_spd region_id env = []) : ar_subprocess_ids region_id env = [] := by
  simp [ar_subprocess_ids, h]

lemma ar_subprocesses_of_spd_empty (region_id : Int) (env : REnv)
    (h : ar_spd region_id env = []) : ar_subprocesses region_id env = [] := by
  simp [ar_subprocesses, ar_subprocess_ids_of_spd_empty region_id env h]

lemma ar_controls_of_spd_empty (region_id : Int) (env : REnv)
    (h : ar_spd region_id env = []) : ar_controls region_id env = [] := by
  simp [ar_controls, ar_subprocess_ids_of_spd_empty region_id env h]

lemma ar_cd_of_controls_empty (region_id : Int) (env : REnv)
    (h : ar_controls region_id env = []) : ar_cd region_id env = [] := by
  simp [ar_cd, ar_control_ids, h]

/-- C7: a missing region yields the initial report — `region = None` (the
error indicator of this report), every child collection and junction list
empty — after the single region fetch; and whenever an intermediate level's
id collection is empty, every downstream level is empty and its fetch is
never issued. -/
theorem C7_analyze_region_short_circuits (region_id : Int) (env : REnv) :
    (env.region = none →
      analyze_region region_id env =
        ({ region_id := region_id, region := none, entities := [], processes := [],
           subprocesses := [], controls := [], processes_data := [], subprocesses_data := [],
           controls_data := [] }, [FetchTag.getRegion])) ∧
    ((analyze_region region_id env).1.entities = [] →
      (analyze_region region_id env).1.processes_data = [] ∧
      (analyze_region region_id env).1.processes = [] ∧
      (analyze_region region_id env).1.subprocesses_data = [] ∧
      (analyze_region region_id env).1.subprocesses = [] ∧
      (analyze_region region_id env).1.controls = [] ∧
      (analyze_region region_id env).1.controls_data = [] ∧
      FetchTag.getProcessesData ∉ (analyze_region region_id env).2 ∧
      FetchTag.getProcesses ∉ (analyze_region region_id env).2 ∧
      FetchTag.getSubprocessesData ∉ (analyze_region region_id env).2 ∧
      FetchTag.getSubprocesses ∉ (analyze_region region_id env).2 ∧
      FetchTag.getControls ∉ (analyze_region region_id env).2 ∧
      FetchTag.getControlsData ∉ (analyze_region region_id env).2) ∧
    ((analyze_region region_id env).1.processes_data = [] →
      (analyze_region region_id env).1.processes = [] ∧
      (analyze_region region_id env).1.subprocesses_data = [] ∧
      (analyze_region region_id env).1.subprocesses = [] ∧
      (analyze_region region_id env).1.controls = [] ∧
      (analyze_region region_id env).1.controls_data = [] ∧
      FetchTag.getProcesses ∉ (analyze_region region_id env).2 ∧
      FetchTag.getSubprocessesData ∉ (analyze_region region_id env).2 ∧
      FetchTag.getSubprocesses ∉ (analyze_region region_id env).2 ∧
      FetchTag.getControls ∉ (analyze_region region_id env).2 ∧
      FetchTag.getControlsData ∉ (analyze_region region_id env).2) ∧
    ((analyze_region region_id env).1.subprocesses_data = [] →
      (analyze_region region_id env).1.subprocesses = [] ∧
      (analyze_region region_id env).1.controls = [] ∧
      (analyze_region region_id env).1.controls_data = [] ∧
      FetchTag.getSubprocesses ∉ (analyze_region region_id env).2 ∧
      FetchTag.getControls ∉ (analyze_region region_id env).2 ∧
      FetchTag.getControlsData ∉ (analyze_region region_id env).2) ∧
    ((analyze_region region_id env).1.controls = [] →
      (analyze_region region_id env).1.controls_data = [] ∧
      FetchTag.getControlsData ∉ (analyze_region region_id env).2) := by
  cases henv : env.region with
  | none =>
    refine ⟨fun _ => by simp [analyze_region, henv], ?_, ?_, ?_, ?_⟩ <;>
      (intro h; simp [analyze_region, henv])
  | some reg =>
    refine ⟨fun hc => by simp at hc, ?_, ?_, ?_, ?_⟩
    · intro h
      simp only [analyze_region, henv] at h
      have hpd := ar_pd_of_entities_empty region_id env h
      have hpids := ar_process_ids_of_pd_empty region_id env hpd
      have hprocs := ar_processes_of_pd_empty region_id env hpd
      have hspd := ar_spd_of_pd_empty region_id env hpd
      have hsids := ar_subprocess_ids_of_spd_empty region_id env hspd
      have hsps := ar_subprocesses_of_spd_empty region_id env hspd
      have hctrls := ar_controls_of_spd_empty region_id env hspd
      have hcd := ar_cd_of_controls_empty region_id env hctrls
      simp [analyze_region, henv, hpd, hprocs, hspd, hsps, hctrls, hcd, hpids, hsids,
        ar_entity_ids, ar_pd_ids, ar_control_ids, h]
    · intro h
      simp only [analyze_region, henv] at h
      have hpids := ar_process_ids_of_pd_empty region_id env h
      have hprocs := ar_processes_of_pd_empty region_id env h
      have hspd := ar_spd_of_pd_empty region_id env h
      have hsids := ar_subprocess_ids_of_spd_empty region_id env hspd
      have hsps := ar_subprocesses_of_spd_empty region_id env hspd
      have hctrls := ar_controls_of_spd_empty region_id env hspd
      have hcd := ar_cd_of_controls_empty region_id env hctrls
      simp [analyze_region, henv, hprocs, hspd, hsps, hctrls, hcd, hpids, hsids,
        ar_pd_ids, ar_control_ids, h]
    · intro h
      simp only [analyze_region, henv] at h
      have hsids := ar_subprocess_ids_of_spd_empty region_id env h
      have hsps := ar_subprocesses_of_spd_empty region_id env h
      have hctrls := ar_controls_of_spd_empty region_id env h
      have hcd := ar_cd_of_controls_empty region_id env hctrls
      simp [analyze_region, henv, hsps, hctrls, hcd, hsids, ar_control_ids, h]
    · intro h
      simp only [analyze_region, henv] at h
      have hcd := ar_cd_of_controls_empty region_id env h
      simp [analyze_region, henv, hcd, ar_control_ids, h]

/-- Witness for C7: a region with no entities stops after the entities fetch
with every downstream collection empty. -/
theorem C7_analyze_region_short_circuits_witness :
    (analyze_region 15
        ⟨some ⟨some 15, some "EMEA", none⟩, [], [], [], [], [], [], []⟩).1.processes_data = []
      ∧ FetchTag.getProcessesData ∉
        (analyze_region 15 ⟨some ⟨some 15, some "EMEA", none⟩, [], [], [], [], [], [], []⟩).2 := by
  have h := ((C7_analyze_region_short_circuits 15
    ⟨some ⟨some 15, some "EMEA", none⟩, [], [], [], [], [], [], []⟩).2.1
    (by simp [analyze_region, ar_entities]))
  exact ⟨h.1, h.2.2.2.2.2.2.1⟩

/-! ### Restoration verifier (scripts/verification/verify_restoration.py)

`compare_entity` compares two JSON dicts field by field over the identity
fields `id, name, uid, region_id, entity_type_id, process_id,
subprocess_id`.  Field values are opaque JSON scalars (`Val`); an absent key
is `none` and `dict.get` of an absent key yields Python `None`
(`Val.vNull`).  The human-readable match/difference strings the code builds
are abstracted to the field tag they report. -/

/-- A JSON scalar as compared by `compare_entity` (null, int or string). -/
inductive Val where
  | vNull
  | vInt (n : Int)
  | vStr (s : String)
deriving DecidableEq, Repr

/-- `dict.get(key)`: `None` (here `Val.vNull`) when the key is absent. -/
def getv (x : Option Val) : Val := x.getD .vNull

/-- A record as read by `compare_entity`: the seven identity fields. -/
structure VRec where
  id : Option Val
  name : Option Val
  uid : Option Val
  region_id : Option Val
  entity_type_id : Option Val
  process_id : Option Val
  subprocess_id : Option Val
deriving DecidableEq, Repr

/-- Which field a match/difference line reports. -/
inductive FieldTag where
  | fid
  | fname
  | fuid
  | fregion_id
  | fentity_type_id
  | fprocess_id
  | fsubprocess_id
deriving DecidableEq, Repr

/-- An unconditional comparison (`id` and `name` in `compare_entity`):
equal values append a match line, differing values a difference line. -/
def cmpAlways (tag : FieldTag) (po pr : Option Val) : List FieldTag × List FieldTag :=
  if getv po = getv pr then ([tag], []) else ([], [tag])

/-- A comparison guarded by `if field in original` (the five `key_fields`). -/
def cmpIfPresent (tag : FieldTag) (po pr : Option Val) : List FieldTag × List FieldTag :=
  if po.isSome then cmpAlways tag po pr else ([], [])

/-- `compare_entity(original, restored, logger)`: returns
`(matches, differences)` in the order the Python code appends them. -/
def compare_entity (original restored : VRec) : List FieldTag × List FieldTag :=
  let parts := [cmpAlways .fid original.id restored.id,
                cmpAlways .fname original.name restored.name,
                cmpIfPresent .fuid original.uid restored.uid,
                cmpIfPresent .fregion_id original.region_id restored.region_id,
                cmpIfPresent .fentity_type_id original.entity_type_id restored.entity_type_id,
                cmpIfPresent .fprocess_id original.process_id restored.process_id,
                cmpIfPresent .fsubprocess_id original.subprocess_id restored.subprocess_id]
  ((parts.map Prod.fst).flatten, (parts.map Prod.snd).flatten)

/-- One element of `results['entities']`; the found branch stores
`original`/`restored` (`some`), the NOT_FOUND branch does not.  The dict key
`'matches'` is rendered here as `matched` (`matches` is reserved). -/
structure VEntry where
  id : Val
  status : String
  matched : List FieldTag
  differences : List FieldTag
  original : Option VRec
  restored : Option VRec
deriving DecidableEq, Repr

/-- The `for original in original_data` loop of `verify_restoration`:
returns the final `perfect_restoration` flag and the entity entries.  A
missing refetch records NOT_FOUND and clears the flag; differences record
PARTIAL and clear the flag; otherwise PERFECT. -/
def verifyLoop (getter : Val → Option VRec) : List VRec → Bool × List VEntry
  | [] => (true, [])
  | o :: rest =>
    let r := verifyLoop getter rest
    match getter (getv o.id) with
    | none => (false, ⟨getv o.id, "NOT_FOUND", [], [], none, none⟩ :: r.2)
    | some rd =>
      let c := compare_entity o rd
      (c.2.isEmpty && r.1,
        ⟨getv o.id, if c.2.isEmpty then "PERFECT" else "PARTIAL", c.1, c.2,
         some o, some rd⟩ :: r.2)

/-- The results dict of `verify_restoration` (`entity_type` is absent in the
unknown-type error return, which also carries `error`). -/
structure VResults where
  perfect_restoration : Bool
  entity_type : Option String
  entities : List VEntry
  error : Option String
deriving DecidableEq, Repr

/-- `verify_restoration(entity_type, original_data, client, logger)`: the
getter is the per-id accessor selected from `getter_map` by the entity type
(an unknown type returns the error dict); each original record is refetched
by id and compared. -/
def verify_restoration (entity_type : String) (original_data : List VRec)
    (getter : Val → Option VRec) : VResults :=
  if entity_type ∈ ["controls", "processes", "subprocesses", "entities",
      "auditable_entities", "regions"] then
    let r := verifyLoop getter original_data
    { perfect_restoration := r.1, entity_type := some entity_type,
      entities := r.2, error := none }
  else
    { perfect_restoration := false, entity_type := none, entities := [],
      error := some "Unknown entity type" }

/-- The final exit of `verify_restoration.main`:
`sys.exit(1)` when `perfect_restoration` is false, 0 otherwise. -/
def main_exit_code (results : VResults) : Nat :=
  if results.perfect_restoration then 0 else 1

/-- Spec-side statement of "no compared field differs" over the fixed
identity fields, written from the spec's words for comparison with
`compare_entity` (the five guarded fields are compared only when present in
the original, as the code does). -/
def specComparedFieldsAgree (original restored : VRec) : Prop :=
  getv original.id = getv restored.id ∧
  getv original.name = getv restored.name ∧
  (original.uid.isSome → getv original.uid = getv restored.uid) ∧
  (original.region_id.isSome → getv original.region_id = getv restored.region_id) ∧
  (original.entity_type_id.isSome →
    getv original.entity_type_id = getv restored.entity_type_id) ∧
  (original.process_id.isSome → getv original.process_id = getv restored.process_id) ∧
  (original.subprocess_id.isSome → getv original.subprocess_id = getv restored.subprocess_id)

/-! ### Helper lemmas for the verifier -/

lemma cmpAlways_snd_nil_iff (tag : FieldTag) (po pr : Option Val) :
    (cmpAlways tag po pr).2 = [] ↔ getv po = getv pr := by
  by_cases h : getv po = getv pr <;> simp [cmpAlways, h]

lemma cmpIfPresent_snd_nil_iff (tag : FieldTag) (po pr : Option Val) :
    (cmpIfPresent tag po pr).2 = [] ↔ (po.isSome → getv po = getv pr) := by
  by_cases hp : po.isSome
  · by_cases h : getv po = getv pr <;> simp [cmpIfPresent, cmpAlways, hp, h]
  · simp [cmpIfPresent, hp]

/-- An entry found with differences makes the loop flag false, wherever the
record sits in the batch. -/
lemma verifyLoop_false_of_bad_mem (getter : Val → Option VRec) (o rd : VRec)
    (hg : getter (getv o.id) = some rd) (hne : (compare_entity o rd).2 ≠ []) :
    ∀ data, o ∈ data → (verifyLoop getter data).1 = false := by
  intro data
  induction data with
  | nil => simp
  | cons x rest ih =>
    intro hmem
    rcases List.mem_cons.mp hmem with rfl | hmem2
    · have hie : (compare_entity o rd).2.isEmpty = false := by
        cases hc : (compare_entity o rd).2 with
        | nil => exact absurd hc hne
        | cons a l => rfl
      simp [verifyLoop, hg, hie]
    · cases hgx : getter (getv x.id) with
      | none => simp [verifyLoop, hgx]
      | some rdx => simp [verifyLoop, hgx, ih hmem2]

/-! ### Claim theorem C9 -/

/-- C9: `compare_entity` reports no difference exactly when every compared
identity field agrees (PERFECT), and otherwise itemizes each differing field
(PARTIAL); in particular a name mismatch puts `name` in the differences of
the affected entry, forces `perfect_restoration = false`, and makes the
process exit with code 1. -/
theorem C9_restoration_verification (o rd : VRec) :
    ((compare_entity o rd).2 = [] ↔ specComparedFieldsAgree o rd) ∧
    (∀ (getter : Val → Option VRec), getter (getv o.id) = some rd →
      verify_restoration "entities" [o] getter =
        { perfect_restoration := (compare_entity o rd).2.isEmpty,
          entity_type := some "entities",
          entities := [⟨getv o.id,
            (if (compare_entity o rd).2.isEmpty then "PERFECT" else "PARTIAL"),
            (compare_entity o rd).1, (compare_entity o rd).2, some o, some rd⟩],
          error := none }) ∧
    (∀ (data : List VRec) (getter : Val → Option VRec),
      o ∈ data → getter (getv o.id) = some rd → getv o.name ≠ getv rd.name →
      FieldTag.fname ∈ (compare_entity o rd).2 ∧
      (verify_restoration "entities" data getter).perfect_restoration = false ∧
      main_exit_code (verify_restoration "entities" data getter) = 1) := by
  refine ⟨?_, ?_, ?_⟩
  · simp only [compare_entity, List.map_cons, List.map_nil, List.flatten_eq_nil_iff,
      List.forall_mem_cons, specComparedFieldsAgree,
      cmpAlways_snd_nil_iff, cmpIfPresent_snd_nil_iff]
    simp only [List.not_mem_nil, false_implies, implies_true, and_true]
  · intro getter hg
    simp [verify_restoration, verifyLoop, hg]
  · intro data getter hmem hg hne
    have hfname : FieldTag.fname ∈ (compare_entity o rd).2 := by
      simp [compare_entity, cmpAlways, hne]
    have hdiff : (compare_entity o rd).2 ≠ [] := List.ne_nil_of_mem hfname
    have hflag := verifyLoop_false_of_bad_mem getter o rd hg hdiff data hmem
    refine ⟨hfname, ?_, ?_⟩
    · simp [verify_restoration, hflag]
    · simp [verify_restoration, main_exit_code, hflag]

/-- Witness for C9, following the spec scenario: original `id 7, name "X"`
against refetched `id 7, name "Y"` yields a name difference, a false
`perfect_restoration` and exit code 1. -/
theorem C9_restoration_verification_witness :
    FieldTag.fname ∈
      (compare_entity ⟨some (.vInt 7), some (.vStr "X"), none, none, none, none, none⟩
        ⟨some (.vInt 7), some (.vStr "Y"), none, none, none, none, none⟩).2 ∧
    (verify_restoration "entities"
      [⟨some (.vInt 7), some (.vStr "X"), none, none, none, none, none⟩]
      (fun v => if v = .vInt 7
        then some ⟨some (.vInt 7), some (.vStr "Y"), none, none, none, none, none⟩
        else none)).perfect_restoration = false ∧
    main_exit_code (verify_restoration "entities"
      [⟨some (.vInt 7), some (.vStr "X"), none, none, none, none, none⟩]
      (fun v => if v = .vInt 7
        then some ⟨some (.vInt 7), some (.vStr "Y"), none, none, none, none, none⟩
        else none)) = 1 :=
  (C9_restoration_verification
    ⟨some (.vInt 7), some (.vStr "X"), none, none, none, none, none⟩
    ⟨some (.vInt 7), some (.vStr "Y"), none, none, none, none, none⟩).2.2
    [⟨some (.vInt 7), some (.vStr "X"), none, none, none, none, none⟩]
    (fun v => if v = .vInt 7
      then some ⟨some (.vInt 7), some (.vStr "Y"), none, none, none, none, none⟩
      else none)
    (by simp) (by simp [getv]) (by decide)

end AuditBoard
